import Mathlib

/-!
# Verification of `filtergeojson.py` (saglac_polls)

Shallow embedding of the election-data processing script: schema resolution
(`detect_columns`), row cleaning (`filter_combined_rows`), numeric coercion,
aggregation by polling division, percentage and leading-candidate derivation
(`find_leading_candidate`), the district filter and inner join against the
boundary features, and the error-handling shape of `process_election_data` /
`main`.

Conventions of the embedding:
* A CSV cell is `Option String`; `none` is pandas' missing value (NaN).
* Python's substring test `p in s` is `pyIn p s`.
* `str.strip()` is `pyStrip`; `astype(str)` maps NaN to the string "nan"
  (`pyStr`).
* The consumed numeric parser (`pd.to_numeric`, a library collaborator of the
  script) is modelled on integer-literal cells: an optional sign followed by
  decimal digits, with surrounding whitespace accepted; anything else is an
  unparsable value (`none`, i.e. NaN under `errors='coerce'`).
* Float NaN/inf arising from division by zero is modelled as `none` in
  `Option ℚ`: an undefined marker distinct from every number.
-/

namespace SaglacPolls

/-- Boolean contiguous-substring test on character lists: `subOf p s` is true
iff `p` occurs as a contiguous sublist of `s` (Python's `p in s`). -/
def subOf : List Char → List Char → Bool
  | p, [] => p.isEmpty
  | p, s@(_ :: t) => p.isPrefixOf s || subOf p t

/-- Python's `p in s` substring test on strings. -/
def pyIn (p s : String) : Bool := subOf p.data s.data

/-- Python's `str(x)` on a possibly-missing cell: pandas `astype(str)` turns
NaN into the literal string "nan". -/
def pyStr : Option String → String
  | none => "nan"
  | some s => s

/-- Strip leading and trailing whitespace characters from a character list. -/
def stripChars (l : List Char) : List Char :=
  ((l.dropWhile Char.isWhitespace).reverse.dropWhile Char.isWhitespace).reverse

/-- Python's `str.strip()`. -/
def pyStrip (s : String) : String := ⟨stripChars s.data⟩

/-- Numeric value of a list of decimal digit characters. -/
def digitsVal (l : List Char) : Nat :=
  l.foldl (fun a c => a * 10 + (c.toNat - '0'.toNat)) 0

/-- Modelled from the spec (§6 collaborators): the tabular reader's numeric
parser `pd.to_numeric(·, errors='coerce')`, restricted to integer-literal
cells: optional sign then one or more decimal digits, surrounding whitespace
tolerated; every other string is unparsable (`none` = NaN). -/
def pyToNumeric (s : String) : Option Int :=
  match stripChars s.data with
  | [] => none
  | '-' :: rest =>
      if rest ≠ [] ∧ rest.all Char.isDigit then some (-(digitsVal rest : Int)) else none
  | '+' :: rest =>
      if rest ≠ [] ∧ rest.all Char.isDigit then some (digitsVal rest : Int) else none
  | l =>
      if l.all Char.isDigit then some (digitsVal l : Int) else none

/-! ## Schema resolver: `detect_columns` -/

/-- The bilingual label fragments of `detect_columns` (the `patterns` dict),
in its insertion order. -/
def patterns : List (String × List String) :=
  [("district_number", ["Electoral District Number", "Numéro de circonscription"]),
   ("district_name", ["Electoral District Name", "Nom de circonscription"]),
   ("pd_number", ["Polling Division Number", "Numéro de section de vote"]),
   ("pd_name", ["Polling Division Name", "Nom de section de vote"]),
   ("rejected", ["Rejected Ballots", "Bulletins rejetés"]),
   ("total_votes", ["Total Votes", "Total des votes"]),
   ("electors", ["Electors", "Électeurs"])]

/-- Source line 163: `matching_cols = [col for col in columns if pattern in col]`. -/
def matching_cols (columns : List String) (pat : String) : List String :=
  columns.filter (fun c => pyIn pat c)

/-- The inner loop of `detect_columns` for one logical field: try each pattern
in order; the first pattern with a non-empty match list yields that list's
first column. -/
def detectField (columns : List String) : List String → Option String
  | [] => none
  | p :: ps =>
      match matching_cols columns p with
      | [] => detectField columns ps
      | c :: _ => some c

/-- The stop-list of fragments excluding a header from candidacy
(line 172 of the source). -/
def stopFragments : List String :=
  ["rejected", "total", "elector", "number", "name", "division"]

/-- Result of `detect_columns`: the detected standard fields (an association
list in `patterns` order), the warned-about unmapped keys, and the candidate
columns. -/
structure ColumnMapping where
  std : List (String × String)
  warnings : List String
  candidates : List String
  deriving Repr, DecidableEq

/-- The resolver `detect_columns` over the CSV header list: map each logical field to the
first column matching the first matching pattern; record a warning for fields
with no match; candidate columns are the headers not mapped to a standard
field and containing no stop fragment, in header order. -/
def detect_columns (columns : List String) : ColumnMapping :=
  let std := patterns.filterMap (fun kp => (detectField columns kp.2).map (fun c => (kp.1, c)))
  let warnings := (patterns.filter (fun kp => (detectField columns kp.2).isNone)).map (·.1)
  let standard_cols := std.map (·.2)
  let candidates := columns.filter
    (fun c => !standard_cols.contains c && !stopFragments.any (fun x => pyIn x c))
  ⟨std, warnings, candidates⟩

/-- Errors an access of `process_election_data` can raise. -/
inductive PErr where
  | fieldNotFound (key : String)
  | emptyTable
  | noCandidates
  deriving Repr, DecidableEq

/-- Access `column_mapping[key]` for a standard field: a missing key raises a
field-not-found error (Python `KeyError`). -/
def getStdCol (m : ColumnMapping) (key : String) : Except PErr String :=
  match m.std.lookup key with
  | some c => Except.ok c
  | none => Except.error (PErr.fieldNotFound key)

/-- The claim's description of field resolution, written from the spec's
words: take the first pattern that is a substring of some header, then the
first header it matches; `none` when no pattern matches any header. -/
def specResolveField (columns : List String) (pats : List String) : Option String :=
  (pats.find? (fun p => columns.any (fun c => pyIn p c))).bind
    (fun p => columns.find? (fun c => pyIn p c))

/-! ## Row cleaning and numeric coercion -/

/-- The cleaner `filter_combined_rows(df, first_candidate_col)` (line 180): keep the rows
whose value in the chosen column, converted to a string, does not contain the
substring "Combined". -/
def filter_combined_rows {α : Type} (rows : List α) (getCell : α → Option String) :
    List α :=
  rows.filter (fun r => !(pyIn "Combined" (pyStr (getCell r))))

/-- Coercion `pd.to_numeric(col, errors='coerce')` applied to one cell (line 71): a
missing cell stays missing, an unparsable string becomes missing (NaN). -/
def coerceNum (cell : Option String) : Option ℚ :=
  cell.bind (fun s => (pyToNumeric s).map (fun n => (n : ℚ)))

/-- Line 74: `pd.to_numeric(cell.astype(str).str.strip(),
errors='coerce').fillna(0).astype(int)` — polling-division id coercion;
missing and unparsable cells become the placeholder id 0. -/
def coercePD (cell : Option String) : Int :=
  match pyToNumeric (pyStrip (pyStr cell)) with
  | some n => n
  | none => 0

/-! ## Aggregation by polling division -/

/-- One cleaned, coerced CSV row (after lines 66–78): integer division id,
raw division name, per-candidate numeric cells, and the three standard
numeric cells, each `none` when missing/unparsable. -/
structure CRow where
  pdNum : Int
  name : Option String
  cand : List (Option ℚ)
  rejected : Option ℚ
  total : Option ℚ
  electors : Option ℚ
  deriving Repr, DecidableEq

/-- pandas' NaN-skipping column sum (`.sum()` on a group): missing values
contribute nothing; the empty and all-missing group sums to 0. -/
def npSum (l : List (Option ℚ)) : ℚ :=
  l.foldl (fun a x => match x with | none => a | some v => a + v) 0

/-- pandas' `.first()` on a group: the first non-null value, if any. -/
def npFirst : List (Option String) → Option String
  | [] => none
  | none :: t => npFirst t
  | some s :: _ => some s

/-- Insert into a sorted list of keys (ascending). -/
def insertSorted (x : Int) : List Int → List Int
  | [] => [x]
  | y :: t => if x ≤ y then x :: y :: t else y :: insertSorted x t

/-- The group keys of `groupby('PD_NUM')`: distinct ids in ascending order
(pandas sorts group keys). -/
def groupKeys (l : List Int) : List Int := l.dedup.foldr insertSorted []

/-- Python's `max(iterable, key=...)` specialised to candidate/vote pairs:
scan left to right, replacing the current best only on a strictly greater
vote count, so the first pair attaining the maximum wins. -/
def pyMaxPair (x : String × ℚ) (xs : List (String × ℚ)) : String × ℚ :=
  xs.foldl (fun b y => if y.2 > b.2 then y else b) x

/-- Source `find_leading_candidate(row, candidate_cols)` (lines 182–185): the name
with the most votes among the aligned candidate names and vote counts, ties
broken in favour of the earlier candidate; `none` on an empty candidate list
(Python `max` raises there, which the pipeline rules out at line 66). -/
def find_leading_candidate (names : List String) (votes : List ℚ) : Option String :=
  match names.zip votes with
  | [] => none
  | x :: xs => some (pyMaxPair x xs).1

/-- Percentage of one candidate (line 86): `votes / total * 100`; the float
NaN/inf produced by a zero total is the undefined marker `none`. -/
def pctOf (v t : ℚ) : Option ℚ := if t = 0 then none else some (v / t * 100)

/-- Line 94: `row[f"{row['leading_candidate']}_pct"]` — look the leading
candidate's percentage up by candidate name. -/
def leadingPctOf (names : List String) (pcts : List (Option ℚ)) (lead : Option String) :
    Option (Option ℚ) :=
  lead.bind (fun c => (names.zip pcts).lookup c)

/-- One `PollingDivisionAggregate`: a row of `polling_division_results` after
lines 76–98. -/
structure Agg where
  pdNum : Int
  candVotes : List ℚ
  rejected : ℚ
  totalVotes : ℚ
  electors : ℚ
  candPcts : List (Option ℚ)
  leading : Option String
  leadingPct : Option (Option ℚ)
  pdName : Option String
  deriving Repr, DecidableEq

/-- The aggregate of one polling-division group (lines 76–98): NaN-skipping
sums of the numeric columns over the rows with this id, per-candidate
percentages, leading candidate and its percentage, and the first non-null
division name. -/
def aggFor (names : List String) (rows : List CRow) (k : Int) : Agg :=
  let g := rows.filter (fun r => r.pdNum == k)
  let candVotes := (List.range names.length).map
    (fun i => npSum (g.map (fun r => r.cand.getD i none)))
  let total := npSum (g.map (fun r => r.total))
  let pcts := candVotes.map (fun v => pctOf v total)
  let lead := find_leading_candidate names candVotes
  { pdNum := k
    candVotes := candVotes
    rejected := npSum (g.map (fun r => r.rejected))
    totalVotes := total
    electors := npSum (g.map (fun r => r.electors))
    candPcts := pcts
    leading := lead
    leadingPct := leadingPctOf names pcts lead
    pdName := npFirst (g.map (fun r => r.name)) }

/-- The `groupby('PD_NUM')` aggregation: one aggregate per distinct division id,
keys in ascending order. -/
def aggregateRows (names : List String) (rows : List CRow) : List Agg :=
  (groupKeys (rows.map (fun r => r.pdNum))).map (aggFor names rows)

/-! ## Boundary features and the join -/

/-- One GeoJSON boundary feature: district id (`FED_NUM`), polling-division
id (`PD_NUM`), and an inert stand-in for the geometry and remaining
attributes. -/
structure Feature where
  fedNum : Int
  pdNum : Int
  geom : String
  deriving Repr, DecidableEq

/-- Line 62: `gdf['FED_NUM'] == district_number`. The district number read
from the CSV is `none` when its cell was missing or non-numeric; comparison
with a missing number matches nothing. -/
def matchesDistrict (dn : Option Int) (f : Feature) : Bool :=
  match dn with
  | some d => f.fedNum == d
  | none => false

/-- Lines 104–108: `gdf_district.merge(polling_division_results, on='PD_NUM',
how='inner')` — every feature paired with every aggregate sharing its
division id, in left (feature) order. -/
def innerJoinOn (fs : List Feature) (aggs : List Agg) : List (Feature × Agg) :=
  fs.flatMap (fun f => (aggs.filter (fun a => a.pdNum == f.pdNum)).map (fun a => (f, a)))

/-- One row of the simplified output file (lines 122–123): the minimal column
subset of a merged feature. -/
structure SimpleRow where
  pdNum : Int
  pdName : Option String
  geom : String
  candVotes : List ℚ
  rejected : ℚ
  totalVotes : ℚ
  electors : ℚ
  leading : Option String
  leadingPct : Option (Option ℚ)
  candPcts : List (Option ℚ)
  deriving Repr, DecidableEq

/-- Project a merged feature onto the simplified column subset. -/
def simpleRowOf (fa : Feature × Agg) : SimpleRow :=
  { pdNum := fa.2.pdNum
    pdName := fa.2.pdName
    geom := fa.1.geom
    candVotes := fa.2.candVotes
    rejected := fa.2.rejected
    totalVotes := fa.2.totalVotes
    electors := fa.2.electors
    leading := fa.2.leading
    leadingPct := fa.2.leadingPct
    candPcts := fa.2.candPcts }

/-- The simplified output content (line 123). -/
def simpleOf (m : List (Feature × Agg)) : List SimpleRow := m.map simpleRowOf

/-! ## The whole run: `process_election_data` and `main` -/

/-- The in-memory CSV table: headers and rows of possibly-missing cells. -/
structure Table where
  headers : List String
  rows : List (List (Option String))
  deriving Repr, DecidableEq

/-- Cell access `row[col]` through the header list: the cell under the first header equal
to `col` (missing column or short row reads as a missing cell; the pipeline
only reads detected columns, which exist). -/
def cellByName (headers : List String) (row : List (Option String)) (col : String) :
    Option String :=
  match headers.findIdx? (fun h => h == col) with
  | none => none
  | some i => (row.get? i).join

/-- A file written by the run. -/
inductive WriteEvent where
  | results (content : List (Feature × Agg))
  | simple (content : List SimpleRow)
  deriving Repr, DecidableEq

/-- The data computed by a successful run, including the two output files'
contents (written only at the end, lines 116–124) and the counts the run
prints (lines 58, 63, 100, 101, 110). -/
structure RunResult where
  districtNumber : Option Int
  districtName : Option String
  columnMapping : ColumnMapping
  featureCountTotal : Nat
  featureCountDistrict : Nat
  divisionsCsv : Nat
  divisionsGeo : Nat
  mergedCount : Nat
  merged : List (Feature × Agg)
  simple : List SimpleRow
  writes : List WriteEvent
  deriving Repr, DecidableEq

/-- The success-path result of a run (lines 58–124): district filter, join,
counts, output-file contents. Both writes belong to the fully computed
result. -/
def buildResult (geo : List Feature) (cm : ColumnMapping) (districtNumber : Option Int)
    (districtName : Option String) (aggs : List Agg) : RunResult :=
  let gdf_district := geo.filter (matchesDistrict districtNumber)
  let merged := innerJoinOn gdf_district aggs
  let simple := simpleOf merged
  { districtNumber := districtNumber
    districtName := districtName
    columnMapping := cm
    featureCountTotal := geo.length
    featureCountDistrict := gdf_district.length
    divisionsCsv := aggs.length
    divisionsGeo := (gdf_district.map (fun f => f.pdNum)).dedup.length
    mergedCount := merged.length
    merged := merged
    simple := simple
    writes := [WriteEvent.results merged, WriteEvent.simple simple] }

/-- The pipeline `process_election_data` (lines 7–141) over in-memory inputs: resolve the
schema (failing on access to an unmapped standard field, in source order),
read the district from the first row (failing on an empty table), filter the
boundary features to the district, clean the rows, coerce, aggregate, join,
and produce both output files' contents. Writes happen only in the final,
fully computed result. -/
def process_election_data (csv : Table) (geo : List Feature) : Except PErr RunResult :=
  let cm := detect_columns csv.headers
  match getStdCol cm "district_number" with
  | Except.error e => Except.error e
  | Except.ok district_num_col =>
  match getStdCol cm "district_name" with
  | Except.error e => Except.error e
  | Except.ok district_name_col =>
  match getStdCol cm "pd_number" with
  | Except.error e => Except.error e
  | Except.ok pd_num_col =>
  match getStdCol cm "pd_name" with
  | Except.error e => Except.error e
  | Except.ok pd_name_col =>
  match getStdCol cm "rejected" with
  | Except.error e => Except.error e
  | Except.ok rejected_col =>
  match getStdCol cm "total_votes" with
  | Except.error e => Except.error e
  | Except.ok total_votes_col =>
  match getStdCol cm "electors" with
  | Except.error e => Except.error e
  | Except.ok electors_col =>
  match csv.rows with
  | [] => Except.error PErr.emptyTable
  | row0 :: _ =>
  let candidate_cols := cm.candidates
  let districtNumber := (cellByName csv.headers row0 district_num_col).bind pyToNumeric
  let districtName := cellByName csv.headers row0 district_name_col
  match candidate_cols with
  | [] => Except.error PErr.noCandidates
  | first_cand :: _ =>
  let csv_clean := filter_combined_rows csv.rows
    (fun r => cellByName csv.headers r first_cand)
  let crows : List CRow := csv_clean.map (fun r =>
    { pdNum := coercePD (cellByName csv.headers r pd_num_col)
      name := cellByName csv.headers r pd_name_col
      cand := candidate_cols.map (fun c => coerceNum (cellByName csv.headers r c))
      rejected := coerceNum (cellByName csv.headers r rejected_col)
      total := coerceNum (cellByName csv.headers r total_votes_col)
      electors := coerceNum (cellByName csv.headers r electors_col) })
  let aggs := aggregateRows candidate_cols crows
  Except.ok (buildResult geo cm districtNumber districtName aggs)

/-- Message `str(e)` for the modelled errors. -/
def errMessage : PErr → String
  | PErr.fieldNotFound key => key
  | PErr.emptyTable => "single positional indexer is out-of-bounds"
  | PErr.noCandidates => "list index out of range"

/-- Outcome of `main` (lines 206–220): the printed error report (if any), the
re-raised exception (if any), and the files written. -/
structure MainOutcome where
  errorMessage : Option String
  raised : Option PErr
  writes : List WriteEvent
  deriving Repr, DecidableEq

/-- The `try/except` of `main`: on failure, print "Error processing data"
with the cause and re-raise; on success, the run's writes stand. -/
def mainRun (csv : Table) (geo : List Feature) : MainOutcome :=
  match process_election_data csv geo with
  | Except.ok r => { errorMessage := none, raised := none, writes := r.writes }
  | Except.error e =>
      { errorMessage := some ("Error processing data: " ++ errMessage e)
        raised := some e
        writes := [] }

/-- The spec's combined-row example: three raw rows for division "100" whose
first-candidate cells are "Combined", "5" and "7". -/
def combinedExampleRaw : List (Option String × Option String) :=
  [(some "100", some "Combined"), (some "100", some "5"), (some "100", some "7")]

/-- The combined-row example driven through cleaning, coercion and
aggregation for division 100, with the one candidate column as the chosen
column of `filter_combined_rows`. -/
def combinedExampleAgg : Agg :=
  aggFor ["X"]
    ((filter_combined_rows combinedExampleRaw (fun r => r.2)).map
      (fun r =>
        { pdNum := coercePD r.1
          name := none
          cand := [coerceNum r.2]
          rejected := none
          total := coerceNum r.2
          electors := none }))
    100

example : detect_columns ["Total Votes"] =
    ⟨[("total_votes", "Total Votes")],
     ["district_number", "district_name", "pd_number", "pd_name", "rejected", "electors"],
     []⟩ := by decide

example : pyIn "Combined" "Combined results / résultats combinés" = true := by decide
example : pyToNumeric "  042 " = some 42 := by decide
example : pyToNumeric "" = none := by decide

/-! ## Lemmas about the schema resolver -/

theorem head?_filter_eq_find? (q : α → Bool) (l : List α) :
    (l.filter q).head? = l.find? q := by
  induction l with
  | nil => rfl
  | cons a t ih =>
    cases hq : q a <;> simp [List.filter_cons, List.find?_cons, hq, ih]

/-- The loop of `detect_columns` computes exactly the claim's description:
first matching pattern, then first matching column. -/
theorem detectField_eq_spec (columns pats : List String) :
    detectField columns pats = specResolveField columns pats := by
  induction pats with
  | nil => rfl
  | cons p ps ih =>
    cases hany : columns.any (fun c => pyIn p c) with
    | false =>
      have hm : matching_cols columns p = [] := by
        simp only [List.any_eq_false] at hany
        simp only [matching_cols, List.filter_eq_nil_iff]
        intro a ha
        simpa using hany a ha
      rw [detectField, hm, ih]
      simp [specResolveField, List.find?_cons, hany]
    | true =>
      have hm : matching_cols columns p ≠ [] := by
        simp only [List.any_eq_true] at hany
        obtain ⟨c, hc, hpc⟩ := hany
        simp [matching_cols, List.filter_eq_nil_iff]
        exact ⟨c, hc, hpc⟩
      rw [detectField]
      cases hcols : matching_cols columns p with
      | nil => exact absurd hcols hm
      | cons c cs =>
        have hfind : columns.find? (fun c => pyIn p c) = some c := by
          rw [← head?_filter_eq_find?]
          rw [matching_cols] at hcols
          rw [hcols]
          rfl
        simp [specResolveField, List.find?_cons, hany, hfind]

theorem lookup_filterMap_of_not_mem (L : List (String × List String))
    (f : List String → Option String) (key : String) (h : key ∉ L.map Prod.fst) :
    (L.filterMap (fun kp => (f kp.2).map (fun c => (kp.1, c)))).lookup key = none := by
  induction L with
  | nil => rfl
  | cons kp t ih =>
    simp only [List.map_cons, List.mem_cons] at h
    push_neg at h
    obtain ⟨h1, h2⟩ := h
    cases hf : f kp.2 with
    | none => simpa [List.filterMap_cons, hf] using ih h2
    | some c =>
      have hne : (key == kp.1) = false := beq_eq_false_iff_ne.mpr h1
      simpa [List.filterMap_cons, hf, List.lookup, hne] using ih h2

theorem lookup_filterMap_of_mem (L : List (String × List String))
    (f : List String → Option String) (key : String) (pats : List String)
    (hmem : (key, pats) ∈ L) (hnd : (L.map Prod.fst).Nodup) :
    (L.filterMap (fun kp => (f kp.2).map (fun c => (kp.1, c)))).lookup key = f pats := by
  induction L with
  | nil => cases hmem
  | cons kp t ih =>
    obtain ⟨k2, p2⟩ := kp
    simp only [List.map_cons, List.nodup_cons] at hnd
    obtain ⟨hk, hnd'⟩ := hnd
    rcases List.mem_cons.mp hmem with heq | htail
    · injection heq with h1 h2
      subst h1; subst h2
      cases hf : f pats with
      | none =>
        simp only [List.filterMap_cons, hf, Option.map_none']
        rw [lookup_filterMap_of_not_mem t f key hk]
      | some c =>
        simp [List.filterMap_cons, hf, List.lookup]
    · have hkey : key ≠ k2 := by
        rintro rfl
        exact hk (List.mem_map.mpr ⟨(key, pats), htail, rfl⟩)
      have hne : (key == k2) = false := beq_eq_false_iff_ne.mpr hkey
      cases hf : f p2 with
      | none => simpa [List.filterMap_cons, hf] using ih htail hnd'
      | some c => simpa [List.filterMap_cons, hf, List.lookup, hne] using ih htail hnd'

theorem patterns_keys_nodup : (patterns.map Prod.fst).Nodup := by decide

theorem detect_columns_std_lookup (columns : List String) (key : String)
    (pats : List String) (hmem : (key, pats) ∈ patterns) :
    (detect_columns columns).std.lookup key = detectField columns pats :=
  lookup_filterMap_of_mem patterns (detectField columns) key pats hmem patterns_keys_nodup

/-- C1: for every CSV header list and every standard logical field, the schema
resolver maps the field to the first header matching the first matching
bilingual fragment (first pattern wins, then first column wins); when no
fragment matches any header, the field is absent from the mapping, a warning
naming the field is recorded, and accessing the field yields a
field-not-found error. -/
theorem spec_C1 (columns : List String) (key : String) (pats : List String)
    (hmem : (key, pats) ∈ patterns) :
    (detect_columns columns).std.lookup key = specResolveField columns pats
    ∧ (specResolveField columns pats = none →
        key ∈ (detect_columns columns).warnings
        ∧ getStdCol (detect_columns columns) key
            = Except.error (PErr.fieldNotFound key)) := by
  have hlk := detect_columns_std_lookup columns key pats hmem
  refine ⟨hlk.trans (detectField_eq_spec columns pats), fun hnone => ?_⟩
  have hdf : detectField columns pats = none :=
    (detectField_eq_spec columns pats).trans hnone
  constructor
  · show key ∈ (patterns.filter (fun kp => (detectField columns kp.2).isNone)).map (·.1)
    exact List.mem_map.mpr
      ⟨(key, pats), List.mem_filter.mpr ⟨hmem, by simp [hdf]⟩, rfl⟩
  · rw [getStdCol, hlk, hdf]

theorem spec_C1_witness :
    ("total_votes", ["Total Votes", "Total des votes"]) ∈ patterns
    ∧ ((detect_columns ["Total Votes"]).std.lookup "total_votes"
          = specResolveField ["Total Votes"] ["Total Votes", "Total des votes"]
        ∧ (specResolveField ["Total Votes"] ["Total Votes", "Total des votes"] = none →
            "total_votes" ∈ (detect_columns ["Total Votes"]).warnings
            ∧ getStdCol (detect_columns ["Total Votes"]) "total_votes"
                = Except.error (PErr.fieldNotFound "total_votes"))) :=
  ⟨by decide, spec_C1 ["Total Votes"] "total_votes" ["Total Votes", "Total des votes"]
    (by decide)⟩

/-- C2: the detected candidate columns are exactly the headers not mapped to
any standard field and containing none of the stop fragments, and they keep
the original header order (sublist of the headers). -/
theorem spec_C2 (columns : List String) (c : String) :
    (c ∈ (detect_columns columns).candidates ↔
      c ∈ columns ∧ c ∉ (detect_columns columns).std.map Prod.snd
        ∧ ∀ x ∈ stopFragments, pyIn x c = false)
    ∧ List.Sublist (detect_columns columns).candidates columns := by
  constructor
  · show c ∈ columns.filter _ ↔ _
    rw [List.mem_filter]
    constructor
    · rintro ⟨hc, hcond⟩
      simp only [Bool.and_eq_true, Bool.not_eq_true'] at hcond
      obtain ⟨hstd, hstop⟩ := hcond
      refine ⟨hc, ?_, ?_⟩
      · intro hmem
        rw [List.contains_eq_any_beq] at hstd
        simp only [List.any_eq_false] at hstd
        obtain ⟨x, hx, hxe⟩ := List.mem_map.mp hmem
        exact absurd (by simpa [hxe] using beq_self_eq_true c)
          (by simpa using hstd c (hxe ▸ List.mem_map_of_mem Prod.snd hx))
      · intro x hx
        simp only [List.any_eq_false] at hstop
        simpa using hstop x hx
    · rintro ⟨hc, hstd, hstop⟩
      refine ⟨hc, ?_⟩
      simp only [Bool.and_eq_true, Bool.not_eq_true']
      refine ⟨?_, List.any_eq_false.mpr (fun x hx => by simp [hstop x hx])⟩
      rw [List.contains_eq_any_beq]
      simp only [List.any_eq_false]
      intro a ha
      intro hbeq
      exact hstd (eq_of_beq hbeq ▸ ha)
  · exact List.filter_sublist columns

/-- C3: the row cleaner drops exactly the rows whose value in the chosen
candidate column contains the substring "Combined" (after string
conversion), keeps the rest in order, and on the spec's example the
aggregate for division 100 sums to 12. -/
theorem spec_C3 {α : Type} (rows : List α) (getCell : α → Option String) (r : α) :
    (r ∈ filter_combined_rows rows getCell ↔
      r ∈ rows ∧ pyIn "Combined" (pyStr (getCell r)) = false)
    ∧ List.Sublist (filter_combined_rows rows getCell) rows
    ∧ combinedExampleAgg.candVotes = [12] := by
  refine ⟨?_, List.filter_sublist rows, ?_⟩
  case refine_2 =>
    have h1 : (filter_combined_rows combinedExampleRaw (fun r => r.2)).map
        (fun r => ({ pdNum := coercePD r.1
                     name := none
                     cand := [coerceNum r.2]
                     rejected := none
                     total := coerceNum r.2
                     electors := none } : CRow))
        = [⟨100, none, [some 5], none, some 5, none⟩,
           ⟨100, none, [some 7], none, some 7, none⟩] := by decide
    unfold combinedExampleAgg
    rw [h1]
    norm_num [aggFor, npSum, List.filter, List.range_succ, List.range_zero]
  rw [filter_combined_rows, List.mem_filter]
  simp only [Bool.not_eq_true']

/-- C10: a row whose chosen-column value is missing (NaN) is retained by the
row cleaner; only a value containing "Combined" after string conversion
causes a drop. -/
theorem spec_C10 {α : Type} (rows : List α) (getCell : α → Option String) (r : α)
    (hr : r ∈ rows) :
    (getCell r = none → r ∈ filter_combined_rows rows getCell)
    ∧ (r ∉ filter_combined_rows rows getCell →
        pyIn "Combined" (pyStr (getCell r)) = true) := by
  constructor
  · intro hmiss
    rw [filter_combined_rows, List.mem_filter]
    refine ⟨hr, ?_⟩
    rw [hmiss]
    decide
  · intro hnot
    by_contra hfalse
    apply hnot
    rw [filter_combined_rows, List.mem_filter]
    refine ⟨hr, ?_⟩
    simp [Bool.eq_false_iff.mpr hfalse]

theorem spec_C10_witness :
    ((some "100", (none : Option String)) ∈
        [((some "100" : Option String), (none : Option String))])
    ∧ ((Prod.snd ((some "100" : Option String), (none : Option String)) = none →
        ((some "100" : Option String), (none : Option String)) ∈
          filter_combined_rows [((some "100" : Option String), (none : Option String))]
            Prod.snd)
      ∧ (((some "100" : Option String), (none : Option String)) ∉
          filter_combined_rows [((some "100" : Option String), (none : Option String))]
            Prod.snd →
         pyIn "Combined"
           (pyStr (Prod.snd ((some "100" : Option String), (none : Option String))))
           = true)) :=
  ⟨by decide,
   spec_C10 [((some "100" : Option String), (none : Option String))] Prod.snd
     ((some "100" : Option String), (none : Option String)) (by decide)⟩

/-- C5: polling-division id coercion strips surrounding whitespace, parses
the rest as a number, and maps a missing or unparsable cell to 0;
"  042 " coerces to 42, "" and non-numeric text coerce to 0. -/
theorem spec_C5 :
    (∀ s, coercePD (some s) = (pyToNumeric (pyStrip s)).getD 0)
    ∧ coercePD none = 0
    ∧ coercePD (some "  042 ") = 42
    ∧ coercePD (some "") = 0
    ∧ coercePD (some "Special Voting Rules") = 0 := by
  refine ⟨fun s => ?_, by decide, by decide, by decide, by decide⟩
  cases h : pyToNumeric (pyStrip s) <;> simp [coercePD, pyStr, h]

theorem npSum_aux (l : List (Option ℚ)) (a : ℚ) :
    List.foldl (fun a x => match x with | none => a | some v => a + v) a l
      = a + (l.map (fun x => x.getD 0)).sum := by
  induction l generalizing a with
  | nil => simp
  | cons x t ih =>
    cases x with
    | none => simp [List.foldl_cons, ih]
    | some v =>
      simp only [List.foldl_cons, List.map_cons, List.sum_cons, ih, Option.getD_some]
      ring

/-- pandas' NaN-skipping sum is the sum with missing values counted as 0. -/
theorem npSum_eq (l : List (Option ℚ)) :
    npSum l = (l.map (fun x => x.getD 0)).sum := by
  rw [npSum, npSum_aux, zero_add]

/-- pandas' group `first()` is the first non-null value of the group. -/
theorem npFirst_eq (l : List (Option String)) : npFirst l = l.findSome? id := by
  induction l with
  | nil => rfl
  | cons x t ih => cases x <;> simp [npFirst, ih, List.findSome?_cons]

/-- C6: in every polling-division aggregate, each numeric field is the sum of
that field over the group's rows with missing values counted as zero, and
the division name is the group's first non-null name in row order. -/
theorem spec_C6 (names : List String) (rows : List CRow) (k : Int) (i : Nat)
    (hi : i < names.length) :
    (aggFor names rows k).candVotes[i]?
      = some (((rows.filter (fun r => r.pdNum == k)).map
          (fun r => (r.cand.getD i none).getD 0)).sum)
    ∧ (aggFor names rows k).rejected
      = ((rows.filter (fun r => r.pdNum == k)).map (fun r => r.rejected.getD 0)).sum
    ∧ (aggFor names rows k).totalVotes
      = ((rows.filter (fun r => r.pdNum == k)).map (fun r => r.total.getD 0)).sum
    ∧ (aggFor names rows k).electors
      = ((rows.filter (fun r => r.pdNum == k)).map (fun r => r.electors.getD 0)).sum
    ∧ (aggFor names rows k).pdName
      = ((rows.filter (fun r => r.pdNum == k)).map (fun r => r.name)).findSome? id := by
  refine ⟨?_, ?_, ?_, ?_, ?_⟩
  · show ((List.range names.length).map _)[i]? = _
    rw [List.getElem?_map, List.getElem?_range hi, Option.map_some']
    rw [npSum_eq, List.map_map]
    rfl
  · show npSum _ = _
    rw [npSum_eq, List.map_map]
    rfl
  · show npSum _ = _
    rw [npSum_eq, List.map_map]
    rfl
  · show npSum _ = _
    rw [npSum_eq, List.map_map]
    rfl
  · show npFirst _ = _
    rw [npFirst_eq]

theorem spec_C6_witness :
    0 < (["X"] : List String).length
    ∧ ((aggFor ["X"] [⟨100, some "Alpha", [some 5], some 1, some 5, none⟩,
          ⟨100, none, [some 7], none, some 7, some 3⟩] 100).candVotes[0]?
        = some ((([⟨100, some "Alpha", [some 5], some 1, some 5, none⟩,
            ⟨100, none, [some 7], none, some 7, some 3⟩] : List CRow).filter
              (fun r => r.pdNum == 100)).map
            (fun r => (r.cand.getD 0 none).getD 0)).sum
      ∧ (aggFor ["X"] [⟨100, some "Alpha", [some 5], some 1, some 5, none⟩,
          ⟨100, none, [some 7], none, some 7, some 3⟩] 100).rejected
        = ((([⟨100, some "Alpha", [some 5], some 1, some 5, none⟩,
            ⟨100, none, [some 7], none, some 7, some 3⟩] : List CRow).filter
              (fun r => r.pdNum == 100)).map (fun r => r.rejected.getD 0)).sum
      ∧ (aggFor ["X"] [⟨100, some "Alpha", [some 5], some 1, some 5, none⟩,
          ⟨100, none, [some 7], none, some 7, some 3⟩] 100).totalVotes
        = ((([⟨100, some "Alpha", [some 5], some 1, some 5, none⟩,
            ⟨100, none, [some 7], none, some 7, some 3⟩] : List CRow).filter
              (fun r => r.pdNum == 100)).map (fun r => r.total.getD 0)).sum
      ∧ (aggFor ["X"] [⟨100, some "Alpha", [some 5], some 1, some 5, none⟩,
          ⟨100, none, [some 7], none, some 7, some 3⟩] 100).electors
        = ((([⟨100, some "Alpha", [some 5], some 1, some 5, none⟩,
            ⟨100, none, [some 7], none, some 7, some 3⟩] : List CRow).filter
              (fun r => r.pdNum == 100)).map (fun r => r.electors.getD 0)).sum
      ∧ (aggFor ["X"] [⟨100, some "Alpha", [some 5], some 1, some 5, none⟩,
          ⟨100, none, [some 7], none, some 7, some 3⟩] 100).pdName
        = ((([⟨100, some "Alpha", [some 5], some 1, some 5, none⟩,
            ⟨100, none, [some 7], none, some 7, some 3⟩] : List CRow).filter
              (fun r => r.pdNum == 100)).map (fun r => r.name)).findSome? id) :=
  ⟨by decide,
   spec_C6 ["X"] [⟨100, some "Alpha", [some 5], some 1, some 5, none⟩,
     ⟨100, none, [some 7], none, some 7, some 3⟩] 100 0 (by decide)⟩

theorem spec_C2_witness :
    ("Candidate A / Candidat A" ∈
        (detect_columns ["Total Votes", "Candidate A / Candidat A"]).candidates ↔
      "Candidate A / Candidat A" ∈ ["Total Votes", "Candidate A / Candidat A"]
        ∧ "Candidate A / Candidat A" ∉
            (detect_columns ["Total Votes", "Candidate A / Candidat A"]).std.map Prod.snd
        ∧ ∀ x ∈ stopFragments, pyIn x "Candidate A / Candidat A" = false)
    ∧ List.Sublist (detect_columns ["Total Votes", "Candidate A / Candidat A"]).candidates
        ["Total Votes", "Candidate A / Candidat A"] :=
  spec_C2 ["Total Votes", "Candidate A / Candidat A"] "Candidate A / Candidat A"

/-! ## Leading-candidate selection -/

theorem pyMaxPair_cons (x y : String × ℚ) (ys : List (String × ℚ)) :
    pyMaxPair x (y :: ys) = pyMaxPair (if y.2 > x.2 then y else x) ys := rfl

theorem pyMaxPair_start_le (x : String × ℚ) (xs : List (String × ℚ)) :
    x.2 ≤ (pyMaxPair x xs).2 := by
  induction xs generalizing x with
  | nil => exact le_refl _
  | cons y ys ih =>
    rw [pyMaxPair_cons]
    by_cases h : y.2 > x.2
    · rw [if_pos h]
      exact le_of_lt (lt_of_lt_of_le h (ih y))
    · rw [if_neg h]
      exact ih x

/-- Python's left-to-right `max` scan splits its input into the strictly
smaller pairs before the winner, the winner, and the no-larger pairs after
it: the first pair attaining the maximum wins. -/
theorem pyMaxPair_decomp (xs : List (String × ℚ)) (x : String × ℚ) :
    ∃ l1 l2, x :: xs = l1 ++ pyMaxPair x xs :: l2
      ∧ (∀ q ∈ l1, q.2 < (pyMaxPair x xs).2)
      ∧ (∀ q ∈ l2, q.2 ≤ (pyMaxPair x xs).2) := by
  induction xs generalizing x with
  | nil => exact ⟨[], [], rfl, by simp, by simp⟩
  | cons y ys ih =>
    rw [pyMaxPair_cons]
    by_cases h : y.2 > x.2
    · rw [if_pos h]
      obtain ⟨l1, l2, hdec, hlt, hle⟩ := ih y
      refine ⟨x :: l1, l2, ?_, ?_, hle⟩
      · rw [List.cons_append, ← hdec]
      · intro q hq
        rcases List.mem_cons.mp hq with rfl | hq'
        · exact lt_of_lt_of_le h (pyMaxPair_start_le y ys)
        · exact hlt q hq'
    · rw [if_neg h]
      push_neg at h
      obtain ⟨l1, l2, hdec, hlt, hle⟩ := ih x
      cases l1 with
      | nil =>
        simp only [List.nil_append] at hdec
        injection hdec with h1 h2
        refine ⟨[], y :: ys, by rw [List.nil_append, ← h1], by simp, ?_⟩
        intro q hq
        rcases List.mem_cons.mp hq with hq0 | hq'
        · rw [hq0, ← h1]
          exact h
        · exact hle q (h2 ▸ hq')
      | cons a l1' =>
        simp only [List.cons_append] at hdec
        injection hdec with h1 h2
        refine ⟨x :: y :: l1', l2, ?_, ?_, hle⟩
        · conv_lhs => rw [h2]
          rw [List.cons_append, List.cons_append]
        · intro q hq
          have ha : a.2 < (pyMaxPair x ys).2 := hlt a (List.mem_cons_self a l1')
          rcases List.mem_cons.mp hq with hq0 | hq'
          · calc q.2 = a.2 := by rw [hq0, h1]
              _ < _ := ha
          rcases List.mem_cons.mp hq' with hq1 | hq''
          · calc q.2 ≤ x.2 := by rw [hq1]; exact h
              _ = a.2 := congrArg Prod.snd h1
              _ < _ := ha
          · exact hlt q (List.mem_cons_of_mem a hq'')

theorem lookup_append_first {β : Type} (A : List (String × β)) (c : String) (w : β)
    (B : List (String × β)) (hc : c ∉ A.map Prod.fst) :
    (A ++ (c, w) :: B).lookup c = some w := by
  induction A with
  | nil => simp [List.lookup]
  | cons a t ih =>
    obtain ⟨k, b⟩ := a
    simp only [List.map_cons, List.mem_cons] at hc
    push_neg at hc
    obtain ⟨h1, h2⟩ := hc
    have hne : (c == k) = false := beq_eq_false_iff_ne.mpr h1
    simpa [List.cons_append, List.lookup, hne] using ih h2

/-- C4: the leading candidate is the argmax over the aligned candidate
votes, ties broken in favour of the first candidate attaining the maximum
(pairs before the winner are strictly smaller, pairs after are no larger),
and the stored leading-candidate percentage is that candidate's
percentage. -/
theorem spec_C4 (names : List String) (votes : List ℚ) (total : ℚ)
    (hne : names.zip votes ≠ []) (hnd : names.Nodup)
    (hlen : names.length = votes.length) :
    ∃ c v l1 l2,
      find_leading_candidate names votes = some c
      ∧ names.zip votes = l1 ++ (c, v) :: l2
      ∧ (∀ q ∈ l1, q.2 < v)
      ∧ (∀ q ∈ l2, q.2 ≤ v)
      ∧ leadingPctOf names (votes.map (fun w => pctOf w total))
          (find_leading_candidate names votes) = some (pctOf v total) := by
  cases hz : names.zip votes with
  | nil => exact absurd hz hne
  | cons x xs =>
    obtain ⟨l1, l2, hdec, hlt, hle⟩ := pyMaxPair_decomp xs x
    have hfl : find_leading_candidate names votes = some (pyMaxPair x xs).1 := by
      rw [find_leading_candidate, hz]
    have hnd2 : (l1.map Prod.fst ++ (pyMaxPair x xs).1 :: l2.map Prod.fst).Nodup := by
      have hmf : (names.zip votes).map Prod.fst = names :=
        List.map_fst_zip names votes (le_of_eq hlen)
      rw [← List.map_cons, ← List.map_append, ← hdec, ← hz, hmf]
      exact hnd
    have hnotin : (pyMaxPair x xs).1 ∉ l1.map Prod.fst := by
      intro hmem
      exact List.disjoint_of_nodup_append hnd2 hmem
        (List.mem_cons_self _ _)
    refine ⟨(pyMaxPair x xs).1, (pyMaxPair x xs).2, l1, l2, hfl, ?_, hlt, hle, ?_⟩
    · rw [hdec]
    · rw [hfl]
      show (names.zip (votes.map (fun w => pctOf w total))).lookup (pyMaxPair x xs).1
        = some (pctOf (pyMaxPair x xs).2 total)
      rw [List.zip_map_right, hz, hdec, List.map_append, List.map_cons]
      have hc : (pyMaxPair x xs).1
          ∉ (l1.map (Prod.map id (fun w => pctOf w total))).map Prod.fst := by
        rw [List.map_map]
        exact hnotin
      exact lookup_append_first _ _ _ _ hc

theorem spec_C4_witness :
    ((["A", "B", "C"].zip ([10, 15, 3] : List ℚ)) ≠ []
      ∧ (["A", "B", "C"] : List String).Nodup
      ∧ (["A", "B", "C"] : List String).length = ([10, 15, 3] : List ℚ).length)
    ∧ (∃ c v l1 l2,
        find_leading_candidate ["A", "B", "C"] [10, 15, 3] = some c
        ∧ ["A", "B", "C"].zip ([10, 15, 3] : List ℚ) = l1 ++ (c, v) :: l2
        ∧ (∀ q ∈ l1, q.2 < v)
        ∧ (∀ q ∈ l2, q.2 ≤ v)
        ∧ leadingPctOf ["A", "B", "C"] (([10, 15, 3] : List ℚ).map (fun w => pctOf w 28))
            (find_leading_candidate ["A", "B", "C"] [10, 15, 3]) = some (pctOf v 28))
    ∧ find_leading_candidate ["A", "B", "C"] [10, 15, 3] = some "B"
    ∧ leadingPctOf ["A", "B", "C"] (([10, 15, 3] : List ℚ).map (fun w => pctOf w 28))
        (some "B") = some (pctOf 15 28) :=
  ⟨⟨by decide, by decide, by decide⟩,
   spec_C4 ["A", "B", "C"] [10, 15, 3] 28 (by decide) (by decide) (by decide),
   by decide, rfl⟩

/-! ## Percentages -/

/-- C8: each candidate's stored percentage in an aggregate is the candidate's
summed votes divided by the summed total votes times 100, and a zero total
yields the undefined marker (never a number, in particular never 0). -/
theorem spec_C8 (names : List String) (rows : List CRow) (k : Int) (i : Nat)
    (hi : i < names.length) :
    ∃ v, (aggFor names rows k).candVotes[i]? = some v
      ∧ (aggFor names rows k).candPcts[i]?
          = some (pctOf v (aggFor names rows k).totalVotes)
      ∧ ((aggFor names rows k).totalVotes ≠ 0 →
          pctOf v (aggFor names rows k).totalVotes
            = some (v / (aggFor names rows k).totalVotes * 100))
      ∧ ((aggFor names rows k).totalVotes = 0 →
          pctOf v (aggFor names rows k).totalVotes = none
          ∧ ∀ q : ℚ, pctOf v (aggFor names rows k).totalVotes ≠ some q) := by
  refine ⟨npSum ((rows.filter (fun r => r.pdNum == k)).map (fun r => r.cand.getD i none)),
    ?_, ?_, ?_, ?_⟩
  · show ((List.range names.length).map _)[i]? = _
    rw [List.getElem?_map, List.getElem?_range hi, Option.map_some']
  · show (((List.range names.length).map _).map _)[i]? = _
    rw [List.getElem?_map, List.getElem?_map, List.getElem?_range hi]
    rfl
  · intro h0
    rw [pctOf, if_neg h0]
  · intro h0
    rw [pctOf, if_pos h0]
    exact ⟨rfl, fun q => by simp⟩

theorem spec_C8_witness :
    0 < (["X"] : List String).length
    ∧ ∃ v, (aggFor ["X"] [] 0).candVotes[0]? = some v
      ∧ (aggFor ["X"] [] 0).candPcts[0]? = some (pctOf v (aggFor ["X"] [] 0).totalVotes)
      ∧ ((aggFor ["X"] [] 0).totalVotes ≠ 0 →
          pctOf v (aggFor ["X"] [] 0).totalVotes
            = some (v / (aggFor ["X"] [] 0).totalVotes * 100))
      ∧ ((aggFor ["X"] [] 0).totalVotes = 0 →
          pctOf v (aggFor ["X"] [] 0).totalVotes = none
          ∧ ∀ q : ℚ, pctOf v (aggFor ["X"] [] 0).totalVotes ≠ some q) :=
  ⟨by decide, spec_C8 ["X"] [] 0 0 (by decide)⟩

/-! ## The join and the run -/

/-- Inverting a successful run: the result is `buildResult` applied to the
detected mapping, the district number parsed from the first row's detected
district-number cell, some district name and some aggregate list. -/
theorem process_ok_inv (csv : Table) (geo : List Feature) (r : RunResult)
    (h : process_election_data csv geo = Except.ok r) :
    ∃ row0 dnc dname aggs,
      csv.rows.head? = some row0
      ∧ getStdCol (detect_columns csv.headers) "district_number" = Except.ok dnc
      ∧ r = buildResult geo (detect_columns csv.headers)
          ((cellByName csv.headers row0 dnc).bind pyToNumeric) dname aggs := by
  simp only [process_election_data] at h
  cases h1 : getStdCol (detect_columns csv.headers) "district_number" with
  | error e => rw [h1] at h; exact Except.noConfusion h
  | ok dnc =>
  rw [h1] at h
  cases h2 : getStdCol (detect_columns csv.headers) "district_name" with
  | error e => rw [h2] at h; exact Except.noConfusion h
  | ok dname_col =>
  rw [h2] at h
  cases h3 : getStdCol (detect_columns csv.headers) "pd_number" with
  | error e => rw [h3] at h; exact Except.noConfusion h
  | ok pdn_col =>
  rw [h3] at h
  cases h4 : getStdCol (detect_columns csv.headers) "pd_name" with
  | error e => rw [h4] at h; exact Except.noConfusion h
  | ok pdna_col =>
  rw [h4] at h
  cases h5 : getStdCol (detect_columns csv.headers) "rejected" with
  | error e => rw [h5] at h; exact Except.noConfusion h
  | ok rej_col =>
  rw [h5] at h
  cases h6 : getStdCol (detect_columns csv.headers) "total_votes" with
  | error e => rw [h6] at h; exact Except.noConfusion h
  | ok tot_col =>
  rw [h6] at h
  cases h7 : getStdCol (detect_columns csv.headers) "electors" with
  | error e => rw [h7] at h; exact Except.noConfusion h
  | ok ele_col =>
  rw [h7] at h
  cases hrows : csv.rows with
  | nil => rw [hrows] at h; exact Except.noConfusion h
  | cons row0 rest =>
  rw [hrows] at h
  cases hcand : (detect_columns csv.headers).candidates with
  | nil => rw [hcand] at h; exact Except.noConfusion h
  | cons first_cand cands =>
  rw [hcand] at h
  have h' := (Except.ok.inj h).symm
  exact ⟨row0, dnc, _, _, rfl, rfl, h'⟩

/-- C7: the join retains exactly the boundary features whose district id
matches the district number and whose division id has a matching aggregate;
aggregates without a matching feature reach neither output file; the
before/after counts are part of the run's result; and a successful run's
district number is the one read from the first row's detected
district-number column. -/
theorem spec_C7 (geo : List Feature) (aggs : List Agg) (dn : Option Int)
    (f : Feature) (a : Agg) (sr : SimpleRow) (cm : ColumnMapping)
    (dname : Option String) :
    ((f, a) ∈ innerJoinOn (geo.filter (matchesDistrict dn)) aggs ↔
      f ∈ geo ∧ matchesDistrict dn f = true ∧ a ∈ aggs ∧ a.pdNum = f.pdNum)
    ∧ (buildResult geo cm dn dname aggs).merged
        = innerJoinOn (geo.filter (matchesDistrict dn)) aggs
    ∧ (sr ∈ (buildResult geo cm dn dname aggs).simple ↔
        ∃ fa ∈ (buildResult geo cm dn dname aggs).merged, sr = simpleRowOf fa)
    ∧ (buildResult geo cm dn dname aggs).featureCountDistrict
        = (geo.filter (matchesDistrict dn)).length
    ∧ (buildResult geo cm dn dname aggs).mergedCount
        = (buildResult geo cm dn dname aggs).merged.length
    ∧ (∀ (csv : Table) (r : RunResult),
        process_election_data csv geo = Except.ok r →
        ∃ row0 dnc aggs2,
          csv.rows.head? = some row0
          ∧ getStdCol (detect_columns csv.headers) "district_number" = Except.ok dnc
          ∧ r.districtNumber = (cellByName csv.headers row0 dnc).bind pyToNumeric
          ∧ r.merged = innerJoinOn (geo.filter (matchesDistrict r.districtNumber)) aggs2
          ∧ r.featureCountDistrict
              = (geo.filter (matchesDistrict r.districtNumber)).length
          ∧ r.mergedCount = r.merged.length) := by
  refine ⟨?_, rfl, ?_, rfl, rfl, ?_⟩
  · constructor
    · intro hmem
      simp only [innerJoinOn, List.mem_flatMap, List.mem_map, List.mem_filter] at hmem
      obtain ⟨f', ⟨hf'geo, hf'd⟩, a', ⟨ha'mem, ha'pd⟩, heq⟩ := hmem
      obtain ⟨rfl, rfl⟩ : f' = f ∧ a' = a := by
        constructor <;> [exact congrArg Prod.fst heq; exact congrArg Prod.snd heq]
      exact ⟨hf'geo, hf'd, ha'mem, by simpa using ha'pd⟩
    · rintro ⟨hfgeo, hfd, hamem, hapd⟩
      simp only [innerJoinOn, List.mem_flatMap, List.mem_map, List.mem_filter]
      exact ⟨f, ⟨hfgeo, hfd⟩, a, ⟨hamem, by simpa using hapd⟩, rfl⟩
  · show sr ∈ simpleOf _ ↔ _
    rw [simpleOf, List.mem_map]
    constructor
    · rintro ⟨fa, hfa, rfl⟩
      exact ⟨fa, hfa, rfl⟩
    · rintro ⟨fa, hfa, rfl⟩
      exact ⟨fa, hfa, rfl⟩
  · intro csv r hok
    obtain ⟨row0, dnc, dname2, aggs2, hhead, hdnc, rfl⟩ := process_ok_inv csv geo r hok
    exact ⟨row0, dnc, aggs2, hhead, hdnc, rfl, rfl, rfl, rfl⟩

theorem spec_C7_witness :
    ((⟨24030, 7, "g"⟩, (⟨7, [], 0, 0, 0, [], none, none, none⟩ : Agg)) ∈
        innerJoinOn (([⟨24030, 7, "g"⟩] : List Feature).filter
          (matchesDistrict (some 24030)))
          [(⟨7, [], 0, 0, 0, [], none, none, none⟩ : Agg)] ↔
      (⟨24030, 7, "g"⟩ : Feature) ∈ ([⟨24030, 7, "g"⟩] : List Feature)
        ∧ matchesDistrict (some 24030) ⟨24030, 7, "g"⟩ = true
        ∧ (⟨7, [], 0, 0, 0, [], none, none, none⟩ : Agg) ∈
            [(⟨7, [], 0, 0, 0, [], none, none, none⟩ : Agg)]
        ∧ (⟨7, [], 0, 0, 0, [], none, none, none⟩ : Agg).pdNum
            = (⟨24030, 7, "g"⟩ : Feature).pdNum)
    ∧ (buildResult [⟨24030, 7, "g"⟩] ⟨[], [], []⟩ (some 24030) none
        [⟨7, [], 0, 0, 0, [], none, none, none⟩]).merged
        = innerJoinOn (([⟨24030, 7, "g"⟩] : List Feature).filter
            (matchesDistrict (some 24030)))
            [⟨7, [], 0, 0, 0, [], none, none, none⟩]
    ∧ (simpleRowOf (⟨24030, 7, "g"⟩, ⟨7, [], 0, 0, 0, [], none, none, none⟩) ∈
        (buildResult [⟨24030, 7, "g"⟩] ⟨[], [], []⟩ (some 24030) none
          [⟨7, [], 0, 0, 0, [], none, none, none⟩]).simple ↔
        ∃ fa ∈ (buildResult [⟨24030, 7, "g"⟩] ⟨[], [], []⟩ (some 24030) none
          [⟨7, [], 0, 0, 0, [], none, none, none⟩]).merged,
          simpleRowOf (⟨24030, 7, "g"⟩, ⟨7, [], 0, 0, 0, [], none, none, none⟩)
            = simpleRowOf fa)
    ∧ (buildResult [⟨24030, 7, "g"⟩] ⟨[], [], []⟩ (some 24030) none
        [⟨7, [], 0, 0, 0, [], none, none, none⟩]).featureCountDistrict
        = (([⟨24030, 7, "g"⟩] : List Feature).filter (matchesDistrict (some 24030))).length
    ∧ (buildResult [⟨24030, 7, "g"⟩] ⟨[], [], []⟩ (some 24030) none
        [⟨7, [], 0, 0, 0, [], none, none, none⟩]).mergedCount
        = (buildResult [⟨24030, 7, "g"⟩] ⟨[], [], []⟩ (some 24030) none
            [⟨7, [], 0, 0, 0, [], none, none, none⟩]).merged.length
    ∧ (∀ (csv : Table) (r : RunResult),
        process_election_data csv [⟨24030, 7, "g"⟩] = Except.ok r →
        ∃ row0 dnc aggs2,
          csv.rows.head? = some row0
          ∧ getStdCol (detect_columns csv.headers) "district_number" = Except.ok dnc
          ∧ r.districtNumber = (cellByName csv.headers row0 dnc).bind pyToNumeric
          ∧ r.merged = innerJoinOn
              (([⟨24030, 7, "g"⟩] : List Feature).filter
                (matchesDistrict r.districtNumber)) aggs2
          ∧ r.featureCountDistrict
              = (([⟨24030, 7, "g"⟩] : List Feature).filter
                  (matchesDistrict r.districtNumber)).length
          ∧ r.mergedCount = r.merged.length) :=
  spec_C7 [⟨24030, 7, "g"⟩] [⟨7, [], 0, 0, 0, [], none, none, none⟩] (some 24030)
    ⟨24030, 7, "g"⟩ ⟨7, [], 0, 0, 0, [], none, none, none⟩
    (simpleRowOf (⟨24030, 7, "g"⟩, ⟨7, [], 0, 0, 0, [], none, none, none⟩))
    ⟨[], [], []⟩ none

/-- C9: a failure after input reading is reported with its cause and
re-raised, and no output file is written; both output files appear only in a
fully computed successful result. -/
theorem spec_C9 (csv : Table) (geo : List Feature) :
    (∀ e, process_election_data csv geo = Except.error e →
      (mainRun csv geo).writes = []
      ∧ (mainRun csv geo).raised = some e
      ∧ (mainRun csv geo).errorMessage
          = some ("Error processing data: " ++ errMessage e))
    ∧ (∀ r, process_election_data csv geo = Except.ok r →
      (mainRun csv geo).writes
        = [WriteEvent.results r.merged, WriteEvent.simple r.simple]
      ∧ r.simple = simpleOf r.merged
      ∧ (mainRun csv geo).raised = none
      ∧ (mainRun csv geo).errorMessage = none) := by
  constructor
  · intro e he
    rw [mainRun, he]
    exact ⟨rfl, rfl, rfl⟩
  · intro r hr
    obtain ⟨row0, dnc, dname, aggs, hhead, hdnc, rfl⟩ := process_ok_inv csv geo r hr
    rw [mainRun, hr]
    exact ⟨rfl, rfl, rfl, rfl⟩

theorem spec_C9_witness :
    process_election_data ⟨[], []⟩ [] = Except.error (PErr.fieldNotFound "district_number")
    ∧ ((mainRun ⟨[], []⟩ []).writes = []
      ∧ (mainRun ⟨[], []⟩ []).raised = some (PErr.fieldNotFound "district_number")
      ∧ (mainRun ⟨[], []⟩ []).errorMessage
          = some ("Error processing data: "
              ++ errMessage (PErr.fieldNotFound "district_number"))) :=
  ⟨rfl, (spec_C9 ⟨[], []⟩ []).1 (PErr.fieldNotFound "district_number") rfl⟩

end SaglacPolls
